import Mathlib

/-!
Shallow embedding of the trigger/aggregation state machine of
`omi_weather_forecast/weather_omi.py`.

The Python module keeps one mutable buffer per session id (class
`MessageBuffer`) and processes webhook deliveries in the Flask handler
`webhook`.  Times are Python floats; we model them as rationals.  The
outbound collaborators (`get_openai_response` used as the location
resolver, and `get_weather_forecast`) never raise — both catch their
exceptions and return a string — so they are modelled as plain
`String → String` functions passed in as parameters.
-/

attribute [local semireducible] Rat.sub Rat.add Rat.mul Rat.inv

namespace WeatherOmi

/-- Python `pat in s` on character lists: `pat` occurs contiguously in `l`. -/
def containsSeq (pat : List Char) : List Char → Bool
  | [] => pat.isEmpty
  | c :: rest => pat.isPrefixOf (c :: rest) || containsSeq pat rest

/-- Python's substring test `pat in s`. -/
def pyContains (s pat : String) : Bool := containsSeq pat.data s.data

/-- Python's `s.endswith(suf)`. -/
def pyEndsWith (s suf : String) : Bool := List.isSuffixOf suf.data s.data

/-- Python's `s.lower()` (per code point, as Python does). -/
def pyLower (s : String) : String := String.mk (s.data.map Char.toLower)

/-- Python's `s.strip()`: whitespace removed from both ends. -/
def pyStrip (s : String) : String :=
  String.mk (((s.data.dropWhile Char.isWhitespace).reverse.dropWhile
    Char.isWhitespace).reverse)

/-- Python's `sep.join(parts)`. -/
def pyJoin (sep : String) : List String → String
  | [] => ""
  | [x] => x
  | x :: y :: rest => x ++ sep ++ pyJoin sep (y :: rest)

/-- Worker for `pySplit`: split at every leftmost non-overlapping occurrence
of the (non-empty) separator.  The fuel argument, instantiated with the
input's length plus one, only makes the recursion structural: each step
consumes at least one character, so the fuel never runs out. -/
def splitOnAux (sep : List Char) : Nat → List Char → List Char → List (List Char)
  | 0, l, acc => [acc.reverse ++ l]
  | fuel + 1, l, acc =>
    match l with
    | [] => [acc.reverse]
    | c :: rest =>
      if sep.isPrefixOf (c :: rest) then
        acc.reverse :: splitOnAux sep fuel (List.drop (sep.length - 1) rest) []
      else splitOnAux sep fuel rest (c :: acc)

/-- Python's `s.split(sep)` for a non-empty separator. -/
def pySplit (s sep : String) : List String :=
  if sep.data = [] then [s]
  else (splitOnAux sep.data (s.data.length + 1) s.data []).map String.mk

/-- `TRIGGER_PHRASES = ["hey omi", "hey, omi"]`. -/
def TRIGGER_PHRASES : List String := ["hey omi", "hey, omi"]

/-- `PARTIAL_FIRST = ["hey", "hey,"]`. -/
def PARTIAL_FIRST : List String := ["hey", "hey,"]

/-- `PARTIAL_SECOND = ["omi"]`. -/
def PARTIAL_SECOND : List String := ["omi"]

/-- `QUESTION_AGGREGATION_TIME = 5` (seconds). -/
def QUESTION_AGGREGATION_TIME : ℚ := 5

/-- `NOTIFICATION_COOLDOWN = 10` (seconds). -/
def NOTIFICATION_COOLDOWN : ℚ := 10

/-- One per-session buffer as created by `MessageBuffer.get_buffer`. -/
structure BufferData where
  messages : List String
  trigger_detected : Bool
  trigger_time : ℚ
  collected_question : List String
  response_sent : Bool
  partial_trigger : Bool
  partial_trigger_time : ℚ
  last_activity : ℚ
deriving DecidableEq

/-- The fresh record `get_buffer` installs for an unknown session id. -/
def freshBuffer (now : ℚ) : BufferData :=
  { messages := []
    trigger_detected := false
    trigger_time := 0
    collected_question := []
    response_sent := false
    partial_trigger := false
    partial_trigger_time := 0
    last_activity := now }

/-- The three responses the `webhook` handler can produce once a session id is
present: the generic `{"status": "success"}` 200, the forecast 200, and the
`"Invalid location extracted"` 400. -/
inductive WebhookResponse where
  | success : WebhookResponse
  | forecast : String → WebhookResponse
  | invalidLocation : WebhookResponse
deriving DecidableEq

/-- `full_question = " ".join(collected_question).strip()`, with `"?"`
appended when missing (`webhook`, lines 262-264). -/
def fullQuestion (fragments : List String) : String :=
  let j := pyStrip (pyJoin " " fragments)
  if pyEndsWith j "?" then j else j ++ "?"

/-- The prompt handed to `get_openai_response` for location extraction
(`webhook`, line 269). -/
def locationQuery (full_question : String) : String :=
  "Extract the city and country from the following question, comma separate it, it should be the only thing returned: " ++ full_question

/-- `question_part = text.split("omi,")[-1].strip() if "omi," in text else ""`
(`webhook`, lines 179-181 and 219-223). -/
def questionPart (text : String) : String :=
  if pyContains text "omi," then pyStrip ((pySplit text "omi,").getLastD "") else ""

/-- The field updates both trigger-confirmation sites perform (`webhook`,
lines 169-186 and 212-228): confirm the trigger, clear the collection, and
seed it with any question part following `"omi,"`.  The cooldown update of
the full-phrase site (line 174) is *not* part of this shared code. -/
def confirmTrigger (now : ℚ) (buf : BufferData) (text : String) : BufferData :=
  let buf1 : BufferData :=
    { buf with trigger_detected := true, trigger_time := now,
               collected_question := [], response_sent := false,
               partial_trigger := false }
  let qp := questionPart text
  if qp = "" then buf1
  else { buf1 with collected_question := buf1.collected_question ++ [qp] }

/-- Outcome of evaluating one segment inside the loop: the mutated buffer and
cooldown, and `some (response, resolver input)` when the iteration executed a
`return` (a dispatch was attempted), `none` when the loop continues. -/
structure SegResult where
  buf : BufferData
  cooldown : ℚ
  ret : Option (WebhookResponse × String)
deriving DecidableEq

/-- Appending the segment within the 5s aggregation window (`webhook`,
lines 243-245). -/
def accumulate (time_since_trigger : ℚ) (buf : BufferData) (text : String) :
    BufferData :=
  if time_since_trigger ≤ QUESTION_AGGREGATION_TIME then
    { buf with collected_question := buf.collected_question ++ [text] }
  else buf

/-- `should_process` (`webhook`, lines 251-258). -/
def shouldProcess (time_since_trigger : ℚ) (collected : List String)
    (text : String) : Bool :=
  (decide (time_since_trigger > QUESTION_AGGREGATION_TIME) && !collected.isEmpty)
    || (!collected.isEmpty && pyContains text "?")
    || decide (time_since_trigger > QUESTION_AGGREGATION_TIME * (3 / 2))

/-- The dispatch (`webhook`, lines 260-304): build the question, call the
resolver, and on exactly two comma-separated parts fetch the forecast and
reset the record; on any other shape return the 400 leaving the record as it
is. -/
def dispatchQuestion (resolve : String → String) (fetch : String → String → String)
    (cooldown : ℚ) (buf1 : BufferData) : SegResult :=
  let location_query := locationQuery (fullQuestion buf1.collected_question)
  let location_parts := pySplit (resolve location_query) ","
  if location_parts.length = 2 then
    let city := pyStrip (location_parts.getD 0 "")
    let country := pyStrip (location_parts.getD 1 "")
    ⟨{ buf1 with trigger_detected := false, trigger_time := 0,
                 collected_question := [], response_sent := true,
                 partial_trigger := false },
     cooldown, some (WebhookResponse.forecast (fetch city country), location_query)⟩
  else
    ⟨buf1, cooldown, some (WebhookResponse.invalidLocation, location_query)⟩

/-- The question-collection block (`webhook`, lines 234-304): while the
trigger is pending, append the segment within the 5s window, evaluate
`should_process`, and dispatch when it holds and the collection is
non-empty. -/
def collectStep (resolve : String → String) (fetch : String → String → String)
    (now cooldown : ℚ) (buf : BufferData) (text : String) : SegResult :=
  if buf.trigger_detected && !buf.response_sent then
    let time_since_trigger : ℚ := now - buf.trigger_time
    let buf1 : BufferData := accumulate time_since_trigger buf text
    if shouldProcess time_since_trigger buf1.collected_question text
        && !buf1.collected_question.isEmpty then
      dispatchQuestion resolve fetch cooldown buf1
    else ⟨buf1, cooldown, none⟩
  else ⟨buf, cooldown, none⟩

/-- One iteration of `for segment in segments` (`webhook`, lines 156-304):
skip empty text, lowercase and trim, check the full phrase, the two partial
steps, then fall through to the collection block. -/
def processSegment (resolve : String → String) (fetch : String → String → String)
    (now cooldown : ℚ) (buf : BufferData) (raw : String) : SegResult :=
  if raw = "" then ⟨buf, cooldown, none⟩
  else
    let text := pyStrip (pyLower raw)
    if (TRIGGER_PHRASES.any fun t => pyContains text (pyLower t)) && !buf.trigger_detected then
      ⟨confirmTrigger now buf text, now, none⟩
    else if !buf.trigger_detected
        && PARTIAL_FIRST.any (fun pa => pyEndsWith text (pyLower pa)) then
      ⟨{ buf with partial_trigger := true, partial_trigger_time := now }, cooldown, none⟩
    else if !buf.trigger_detected && buf.partial_trigger
        && decide (now - buf.partial_trigger_time ≤ 2)
        && PARTIAL_SECOND.any (fun pa => pyContains text (pyLower pa)) then
      ⟨confirmTrigger now buf text, cooldown, none⟩
    else
      let buf1 : BufferData :=
        if !buf.trigger_detected && buf.partial_trigger
            && decide (now - buf.partial_trigger_time > 2) then
          { buf with partial_trigger := false }
        else buf
      collectStep resolve fetch now cooldown buf1 text

/-- The segment loop: stop at the first iteration that returns. -/
def processSegments (resolve : String → String) (fetch : String → String → String)
    (now : ℚ) : List String → ℚ → BufferData → SegResult
  | [], cooldown, buf => ⟨buf, cooldown, none⟩
  | raw :: rest, cooldown, buf =>
    let r := processSegment resolve fetch now cooldown buf raw
    match r.ret with
    | none => processSegments resolve fetch now rest r.cooldown r.buf
    | some _ => r

/-- The result of one webhook delivery for one session: the session's buffer
and cooldown after the request, the HTTP response, and the resolver input
when a dispatch was attempted. -/
structure WebhookOutcome where
  buf : BufferData
  cooldown : ℚ
  resp : WebhookResponse
  resolved : Option String
deriving DecidableEq

/-- One `webhook` POST for a session that already has (or now gets) a buffer:
`get_buffer` refreshes `last_activity`, the cooldown gate may short-circuit
the whole request (lines 145-153), otherwise the segments are processed in
order. -/
def webhook (resolve : String → String) (fetch : String → String → String)
    (now : ℚ) (segments : List String) (buf0 : BufferData) (cooldown : ℚ) :
    WebhookOutcome :=
  let buf : BufferData := { buf0 with last_activity := now }
  if buf.trigger_detected && !buf.response_sent
      && decide (now - cooldown < NOTIFICATION_COOLDOWN) then
    ⟨buf, cooldown, WebhookResponse.success, none⟩
  else
    let r := processSegments resolve fetch now segments cooldown buf
    match r.ret with
    | none => ⟨r.buf, r.cooldown, WebhookResponse.success, none⟩
    | some pr => ⟨r.buf, r.cooldown, pr.1, some pr.2⟩

/-- A sequence of deliveries for one session, each with its arrival time. -/
def processRequests (resolve : String → String) (fetch : String → String → String) :
    List (ℚ × List String) → ℚ → BufferData → BufferData × ℚ
  | [], cooldown, buf => (buf, cooldown)
  | (now, segs) :: rest, cooldown, buf =>
    let r := webhook resolve fetch now segs buf cooldown
    processRequests resolve fetch rest r.cooldown r.buf

/-! ### The session store (`MessageBuffer`) -/

/-- `self.cleanup_interval = 300`. -/
def cleanup_interval : ℚ := 300

/-- The session store: the mapping and the time of the last sweep. -/
structure MessageBuffer where
  buffers : List (String × BufferData)
  last_cleanup : ℚ

/-- `cleanup_old_sessions`: drop every record whose `last_activity` is more
than 3600s in the past, and stamp the sweep time. -/
def cleanup_old_sessions (now : ℚ) (mb : MessageBuffer) : MessageBuffer :=
  { buffers := mb.buffers.filter fun pr => !decide (now - pr.2.last_activity > 3600)
    last_cleanup := now }

/-- Python dict assignment `buffers[sid] = b` on an association list. -/
def setBuffer (sid : String) (b : BufferData) :
    List (String × BufferData) → List (String × BufferData)
  | [] => [(sid, b)]
  | pr :: rest => if pr.1 = sid then (sid, b) :: rest else pr :: setBuffer sid b rest

/-- `MessageBuffer.get_buffer`: sweep opportunistically when more than
`cleanup_interval` seconds have elapsed, then create the record or refresh
its `last_activity`. -/
def get_buffer (now : ℚ) (sid : String) (mb0 : MessageBuffer) :
    MessageBuffer × BufferData :=
  let mb := if now - mb0.last_cleanup > cleanup_interval
            then cleanup_old_sessions now mb0 else mb0
  match mb.buffers.lookup sid with
  | none =>
    let fresh := freshBuffer now
    ({ mb with buffers := setBuffer sid fresh mb.buffers }, fresh)
  | some b =>
    let b1 := { b with last_activity := now }
    ({ mb with buffers := setBuffer sid b1 mb.buffers }, b1)

/-- What a segment evaluation that attempted a dispatch looks like: the
resolver input is the location prompt over the non-empty collection, and the
buffer is either fully reset (two-part resolver output) or untouched, still
in collection mode (any other output). -/
def dispatchShape (r : SegResult) : Prop :=
  ∀ pr : WebhookResponse × String, r.ret = some pr →
    ∃ fs : List String, fs ≠ [] ∧ pr.2 = locationQuery (fullQuestion fs) ∧
      (((∃ msg, pr.1 = WebhookResponse.forecast msg) ∧
          r.buf.trigger_detected = false ∧ r.buf.trigger_time = 0 ∧
          r.buf.collected_question = [] ∧ r.buf.response_sent = true ∧
          r.buf.partial_trigger = false) ∨
        (pr.1 = WebhookResponse.invalidLocation ∧
          r.buf.trigger_detected = true ∧ r.buf.collected_question = fs ∧
          r.buf.response_sent = false))

/-- A non-empty collection only exists while a trigger is pending. -/
def Inv (buf : BufferData) : Prop :=
  buf.collected_question ≠ [] → buf.trigger_detected = true

/-! ### Helper lemmas about the trigger-confirmation sites -/

/-- Both confirmation sites set the four trigger flags the same way. -/
theorem confirmTrigger_fields (now : ℚ) (buf : BufferData) (text : String) :
    (confirmTrigger now buf text).trigger_detected = true ∧
    (confirmTrigger now buf text).trigger_time = now ∧
    (confirmTrigger now buf text).response_sent = false ∧
    (confirmTrigger now buf text).partial_trigger = false ∧
    (confirmTrigger now buf text).collected_question =
      (if questionPart text = "" then [] else [questionPart text]) := by
  unfold confirmTrigger
  dsimp only
  split <;> simp_all

theorem dispatchQuestion_shape (resolve : String → String)
    (fetch : String → String → String) (cd : ℚ) (buf1 : BufferData)
    (hne : buf1.collected_question ≠ [])
    (hT : buf1.trigger_detected = true) (hS : buf1.response_sent = false) :
    dispatchShape (dispatchQuestion resolve fetch cd buf1) := by
  unfold dispatchShape
  simp only [dispatchQuestion]
  split
  · intro pr hpr
    simp only [SegResult.ret] at hpr
    injection hpr with hpr
    subst hpr
    exact ⟨buf1.collected_question, hne, rfl, Or.inl ⟨⟨_, rfl⟩, rfl, rfl, rfl, rfl, rfl⟩⟩
  · intro pr hpr
    simp only [SegResult.ret] at hpr
    injection hpr with hpr
    subst hpr
    exact ⟨buf1.collected_question, hne, rfl, Or.inr ⟨rfl, hT, rfl, hS⟩⟩

theorem collectStep_shape (resolve : String → String)
    (fetch : String → String → String) (now cd : ℚ) (buf : BufferData)
    (text : String) : dispatchShape (collectStep resolve fetch now cd buf text) := by
  unfold collectStep
  split
  case isFalse => intro pr hpr; simp at hpr
  case isTrue hG =>
    dsimp only
    split
    case isFalse => intro pr hpr; simp at hpr
    case isTrue hP =>
      have hne : (accumulate (now - buf.trigger_time) buf text).collected_question ≠ [] := by
        rcases Bool.and_eq_true_iff.mp hP with ⟨-, h2⟩
        simpa using h2
      have hT : (accumulate (now - buf.trigger_time) buf text).trigger_detected = true := by
        rcases Bool.and_eq_true_iff.mp hG with ⟨h1, -⟩
        unfold accumulate; split <;> simpa using h1
      have hS : (accumulate (now - buf.trigger_time) buf text).response_sent = false := by
        rcases Bool.and_eq_true_iff.mp hG with ⟨-, h2⟩
        unfold accumulate; split <;> simpa using h2
      exact dispatchQuestion_shape resolve fetch cd _ hne hT hS

theorem processSegment_shape (resolve : String → String)
    (fetch : String → String → String) (now cd : ℚ) (buf : BufferData)
    (raw : String) : dispatchShape (processSegment resolve fetch now cd buf raw) := by
  unfold processSegment
  split
  · intro pr hpr; simp at hpr
  · dsimp only
    split
    · intro pr hpr; simp at hpr
    · split
      · intro pr hpr; simp at hpr
      · split
        · intro pr hpr; simp at hpr
        · exact collectStep_shape resolve fetch now cd _ _

theorem processSegments_shape (resolve : String → String)
    (fetch : String → String → String) (now : ℚ) (segs : List String) :
    ∀ cd : ℚ, ∀ buf : BufferData,
      dispatchShape (processSegments resolve fetch now segs cd buf) := by
  induction segs with
  | nil => intro cd buf pr hpr; simp [processSegments] at hpr
  | cons raw rest ih =>
    intro cd buf
    rw [processSegments]
    split
    · exact ih _ _
    · exact processSegment_shape resolve fetch now cd buf raw

/-- Lifting `dispatchShape` to a whole request. -/
theorem webhook_dispatch_cases (resolve : String → String)
    (fetch : String → String → String) (now : ℚ) (segs : List String)
    (buf0 : BufferData) (cd : ℚ) :
    ∀ q : String, (webhook resolve fetch now segs buf0 cd).resolved = some q →
      ∃ fs : List String, fs ≠ [] ∧ q = locationQuery (fullQuestion fs) ∧
        (((∃ msg, (webhook resolve fetch now segs buf0 cd).resp =
              WebhookResponse.forecast msg) ∧
            (webhook resolve fetch now segs buf0 cd).buf.trigger_detected = false ∧
            (webhook resolve fetch now segs buf0 cd).buf.trigger_time = 0 ∧
            (webhook resolve fetch now segs buf0 cd).buf.collected_question = [] ∧
            (webhook resolve fetch now segs buf0 cd).buf.response_sent = true ∧
            (webhook resolve fetch now segs buf0 cd).buf.partial_trigger = false) ∨
          ((webhook resolve fetch now segs buf0 cd).resp =
              WebhookResponse.invalidLocation ∧
            (webhook resolve fetch now segs buf0 cd).buf.trigger_detected = true ∧
            (webhook resolve fetch now segs buf0 cd).buf.collected_question = fs ∧
            (webhook resolve fetch now segs buf0 cd).buf.response_sent = false)) := by
  intro q hq
  by_cases hc : (buf0.trigger_detected && !buf0.response_sent
      && decide (now - cd < NOTIFICATION_COOLDOWN)) = true
  · simp [webhook, hc] at hq
  · rcases hm : (processSegments resolve fetch now segs cd
        { buf0 with last_activity := now }).ret with _ | pr
    · simp [webhook, hc, hm] at hq
    · obtain ⟨fs, hfs, hq2, hshape⟩ :=
        processSegments_shape resolve fetch now segs cd
          { buf0 with last_activity := now } pr hm
      simp only [webhook, hc, if_false, Bool.false_eq_true, hm] at hq ⊢
      injection hq with hq
      exact ⟨fs, hfs, hq ▸ hq2, by simpa using hshape⟩

/-! ### The collected-question invariant -/

theorem inv_confirmTrigger (now : ℚ) (buf : BufferData) (text : String) :
    Inv (confirmTrigger now buf text) := by
  intro _
  unfold confirmTrigger
  dsimp only
  split <;> rfl

theorem inv_collectStep (resolve : String → String)
    (fetch : String → String → String) (now cd : ℚ) (buf : BufferData)
    (text : String) (h : Inv buf) :
    Inv (collectStep resolve fetch now cd buf text).buf := by
  unfold collectStep
  split
  case isFalse => exact h
  case isTrue hG =>
    have hT : buf.trigger_detected = true := (Bool.and_eq_true_iff.mp hG).1
    have hT1 : (accumulate (now - buf.trigger_time) buf text).trigger_detected = true := by
      unfold accumulate; split <;> simpa using hT
    dsimp only
    split
    case isFalse => intro _; exact hT1
    case isTrue hP =>
      unfold dispatchQuestion
      dsimp only
      split
      · intro hne; simp at hne
      · intro _; exact hT1

theorem inv_processSegment (resolve : String → String)
    (fetch : String → String → String) (now cd : ℚ) (buf : BufferData)
    (raw : String) (h : Inv buf) :
    Inv (processSegment resolve fetch now cd buf raw).buf := by
  unfold processSegment
  split
  · exact h
  · dsimp only
    split
    · exact inv_confirmTrigger now buf _
    · split
      · intro hne; exact h hne
      · split
        · exact inv_confirmTrigger now buf _
        · apply inv_collectStep
          split
          · intro hne; exact h hne
          · exact h

theorem inv_processSegments (resolve : String → String)
    (fetch : String → String → String) (now : ℚ) (segs : List String) :
    ∀ cd : ℚ, ∀ buf : BufferData, Inv buf →
      Inv (processSegments resolve fetch now segs cd buf).buf := by
  induction segs with
  | nil => intro cd buf h; simpa [processSegments] using h
  | cons raw rest ih =>
    intro cd buf h
    rw [processSegments]
    split
    · exact ih _ _ (inv_processSegment resolve fetch now cd buf raw h)
    · exact inv_processSegment resolve fetch now cd buf raw h

theorem inv_webhook (resolve : String → String)
    (fetch : String → String → String) (now : ℚ) (segs : List String)
    (buf0 : BufferData) (cd : ℚ) (h : Inv buf0) :
    Inv (webhook resolve fetch now segs buf0 cd).buf := by
  have h' : Inv { buf0 with last_activity := now } := fun hne => h hne
  by_cases hc : (buf0.trigger_detected && !buf0.response_sent
      && decide (now - cd < NOTIFICATION_COOLDOWN)) = true
  · simpa [webhook, hc] using h'
  · rcases hm : (processSegments resolve fetch now segs cd
        { buf0 with last_activity := now }).ret with _ | pr
    · have := inv_processSegments resolve fetch now segs cd
        { buf0 with last_activity := now } h'
      simpa [webhook, hc, hm] using this
    · have := inv_processSegments resolve fetch now segs cd
        { buf0 with last_activity := now } h'
      simpa [webhook, hc, hm] using this

theorem inv_processRequests (resolve : String → String)
    (fetch : String → String → String) (reqs : List (ℚ × List String)) :
    ∀ cd : ℚ, ∀ buf : BufferData, Inv buf →
      Inv (processRequests resolve fetch reqs cd buf).1 := by
  induction reqs with
  | nil => intro cd buf h; simpa [processRequests] using h
  | cons req rest ih =>
    intro cd buf h
    rw [processRequests]
    exact ih _ _ (inv_webhook resolve fetch req.1 req.2 buf cd h)

/-! ### Equation lemmas for the individual branches of a segment evaluation -/

theorem dispatchQuestion_ret_ne (resolve : String → String)
    (fetch : String → String → String) (cd : ℚ) (b : BufferData) :
    (dispatchQuestion resolve fetch cd b).ret ≠ none := by
  unfold dispatchQuestion
  dsimp only
  split <;> simp

theorem collectStep_triggered_eq (resolve : String → String)
    (fetch : String → String → String) (now cd : ℚ) (buf : BufferData)
    (text : String) (hT : buf.trigger_detected = true)
    (hS : buf.response_sent = false) :
    collectStep resolve fetch now cd buf text =
      (if shouldProcess (now - buf.trigger_time)
            (accumulate (now - buf.trigger_time) buf text).collected_question text
          && !(accumulate (now - buf.trigger_time) buf text).collected_question.isEmpty then
        dispatchQuestion resolve fetch cd (accumulate (now - buf.trigger_time) buf text)
      else ⟨accumulate (now - buf.trigger_time) buf text, cd, none⟩) := by
  unfold collectStep
  simp [hT, hS]

theorem collectStep_cooldown (resolve : String → String)
    (fetch : String → String → String) (now cd : ℚ) (buf : BufferData)
    (text : String) : (collectStep resolve fetch now cd buf text).cooldown = cd := by
  unfold collectStep
  split
  · dsimp only
    split
    · unfold dispatchQuestion
      dsimp only
      split <;> rfl
    · rfl
  · rfl

theorem collectStep_none_buf (resolve : String → String)
    (fetch : String → String → String) (now cd : ℚ) (buf : BufferData)
    (text : String) (hT : buf.trigger_detected = true)
    (hS : buf.response_sent = false)
    (hle : now - buf.trigger_time ≤ QUESTION_AGGREGATION_TIME)
    (hnone : (collectStep resolve fetch now cd buf text).ret = none) :
    (collectStep resolve fetch now cd buf text).buf =
      { buf with collected_question := buf.collected_question ++ [text] } := by
  rw [collectStep_triggered_eq resolve fetch now cd buf text hT hS] at hnone ⊢
  by_cases hsp : (shouldProcess (now - buf.trigger_time)
        (accumulate (now - buf.trigger_time) buf text).collected_question text
      && !(accumulate (now - buf.trigger_time) buf text).collected_question.isEmpty) = true
  · rw [if_pos hsp] at hnone
    exact absurd hnone (dispatchQuestion_ret_ne resolve fetch cd _)
  · rw [if_neg hsp]
    simp [accumulate, hle]

theorem collectStep_some_q (resolve : String → String)
    (fetch : String → String → String) (now cd : ℚ) (buf : BufferData)
    (text : String) (pr : WebhookResponse × String)
    (hT : buf.trigger_detected = true) (hS : buf.response_sent = false)
    (hle : now - buf.trigger_time ≤ QUESTION_AGGREGATION_TIME)
    (hsome : (collectStep resolve fetch now cd buf text).ret = some pr) :
    pr.2 = locationQuery (fullQuestion (buf.collected_question ++ [text])) := by
  have hacc : accumulate (now - buf.trigger_time) buf text =
      { buf with collected_question := buf.collected_question ++ [text] } := by
    simp [accumulate, hle]
  rw [collectStep_triggered_eq resolve fetch now cd buf text hT hS, hacc] at hsome
  split at hsome
  · unfold dispatchQuestion at hsome
    dsimp only at hsome
    split at hsome <;> simp at hsome <;> simp [← hsome]
  · simp at hsome

theorem processSegment_triggered_eq (resolve : String → String)
    (fetch : String → String → String) (now cd : ℚ) (buf : BufferData)
    (raw : String) (hT : buf.trigger_detected = true) (hraw : raw ≠ "") :
    processSegment resolve fetch now cd buf raw =
      collectStep resolve fetch now cd buf (pyStrip (pyLower raw)) := by
  simp [processSegment, hraw, hT]

theorem processSegment_full_trigger (resolve : String → String)
    (fetch : String → String → String) (now cd : ℚ) (buf : BufferData)
    (raw : String) (hraw : raw ≠ "")
    (hT : buf.trigger_detected = false)
    (hfull : (TRIGGER_PHRASES.any fun t =>
        pyContains (pyStrip (pyLower raw)) (pyLower t)) = true) :
    processSegment resolve fetch now cd buf raw =
      ⟨confirmTrigger now buf (pyStrip (pyLower raw)), now, none⟩ := by
  simp [processSegment, hraw, hT, hfull]

theorem processSegment_partial_first (resolve : String → String)
    (fetch : String → String → String) (now cd : ℚ) (buf : BufferData)
    (raw : String) (hraw : raw ≠ "")
    (hT : buf.trigger_detected = false)
    (hfull : (TRIGGER_PHRASES.any fun t =>
        pyContains (pyStrip (pyLower raw)) (pyLower t)) = false)
    (hfirst : (PARTIAL_FIRST.any fun pa =>
        pyEndsWith (pyStrip (pyLower raw)) (pyLower pa)) = true) :
    processSegment resolve fetch now cd buf raw =
      ⟨{ buf with partial_trigger := true, partial_trigger_time := now },
        cd, none⟩ := by
  simp [processSegment, hraw, hT, hfull, hfirst]

theorem processSegment_partial_second (resolve : String → String)
    (fetch : String → String → String) (now cd : ℚ) (buf : BufferData)
    (raw : String) (hraw : raw ≠ "")
    (hT : buf.trigger_detected = false)
    (hfull : (TRIGGER_PHRASES.any fun t =>
        pyContains (pyStrip (pyLower raw)) (pyLower t)) = false)
    (hfirst : (PARTIAL_FIRST.any fun pa =>
        pyEndsWith (pyStrip (pyLower raw)) (pyLower pa)) = false)
    (hpart : buf.partial_trigger = true)
    (hwin : now - buf.partial_trigger_time ≤ 2)
    (hsecond : (PARTIAL_SECOND.any fun pa =>
        pyContains (pyStrip (pyLower raw)) (pyLower pa)) = true) :
    processSegment resolve fetch now cd buf raw =
      ⟨confirmTrigger now buf (pyStrip (pyLower raw)), cd, none⟩ := by
  simp [processSegment, hraw, hT, hfull, hfirst, hpart, hwin, hsecond]

theorem processSegment_partial_expired (resolve : String → String)
    (fetch : String → String → String) (now cd : ℚ) (buf : BufferData)
    (raw : String) (hraw : raw ≠ "")
    (hT : buf.trigger_detected = false)
    (hfull : (TRIGGER_PHRASES.any fun t =>
        pyContains (pyStrip (pyLower raw)) (pyLower t)) = false)
    (hfirst : (PARTIAL_FIRST.any fun pa =>
        pyEndsWith (pyStrip (pyLower raw)) (pyLower pa)) = false)
    (hpart : buf.partial_trigger = true)
    (hlate : now - buf.partial_trigger_time > 2) :
    processSegment resolve fetch now cd buf raw =
      ⟨{ buf with partial_trigger := false }, cd, none⟩ := by
  have hnwin : ¬(now - buf.partial_trigger_time ≤ 2) := not_le.mpr hlate
  simp [processSegment, hraw, hT, hfull, hfirst, hpart, hnwin, hlate,
    collectStep]

/-- The joined, stripped question always ends in a question mark. -/
theorem fullQuestion_endsWith (fs : List String) :
    pyEndsWith (fullQuestion fs) "?" = true := by
  unfold fullQuestion
  dsimp only
  split
  case isTrue h => exact h
  case isFalse h =>
    unfold pyEndsWith
    rw [String.data_append]
    simp [List.isSuffixOf_iff_suffix]

/-! ### Session-store lemmas -/

theorem mem_setBuffer_of_ne (sid sid' : String) (b b' : BufferData)
    (l : List (String × BufferData)) (h : sid' ≠ sid) :
    ((sid', b') ∈ setBuffer sid b l) ↔ (sid', b') ∈ l := by
  induction l with
  | nil =>
    simp only [setBuffer, List.mem_singleton, List.not_mem_nil, iff_false]
    intro he
    exact h (congrArg Prod.fst he)
  | cons p rest ih =>
    unfold setBuffer
    split
    case isTrue hp =>
      simp only [List.mem_cons, ih]
      constructor
      · rintro (he | hm)
        · exact absurd (congrArg Prod.fst he) h
        · exact Or.inr hm
      · rintro (he | hm)
        · exact absurd ((congrArg Prod.fst he).trans hp) h
        · exact Or.inr hm
    case isFalse hp =>
      simp only [List.mem_cons, ih]

theorem mem_cleanup (now : ℚ) (mb : MessageBuffer) (sid : String)
    (b : BufferData) :
    ((sid, b) ∈ (cleanup_old_sessions now mb).buffers) ↔
      ((sid, b) ∈ mb.buffers ∧ ¬(now - b.last_activity > 3600)) := by
  simp [cleanup_old_sessions, List.mem_filter]

theorem get_buffer_sweep (now : ℚ) (sid : String) (mb : MessageBuffer)
    (hgt : now - mb.last_cleanup > cleanup_interval) :
    (get_buffer now sid mb).1.last_cleanup = now ∧
    (∀ sid' : String, ∀ b : BufferData, sid' ≠ sid →
      (((sid', b) ∈ (get_buffer now sid mb).1.buffers) ↔
        ((sid', b) ∈ mb.buffers ∧ ¬(now - b.last_activity > 3600)))) := by
  unfold get_buffer
  rw [if_pos hgt]
  dsimp only
  rcases hl : List.lookup sid (cleanup_old_sessions now mb).buffers with _ | b0
  all_goals dsimp only
  · exact ⟨rfl, fun sid' b hne => by
      rw [mem_setBuffer_of_ne _ _ _ _ _ hne, mem_cleanup]⟩
  · exact ⟨rfl, fun sid' b hne => by
      rw [mem_setBuffer_of_ne _ _ _ _ _ hne, mem_cleanup]⟩

theorem get_buffer_nosweep (now : ℚ) (sid : String) (mb : MessageBuffer)
    (hle : ¬(now - mb.last_cleanup > cleanup_interval)) :
    (get_buffer now sid mb).1.last_cleanup = mb.last_cleanup ∧
    (∀ sid' : String, ∀ b : BufferData, sid' ≠ sid →
      (((sid', b) ∈ (get_buffer now sid mb).1.buffers) ↔
        (sid', b) ∈ mb.buffers)) := by
  unfold get_buffer
  rw [if_neg hle]
  dsimp only
  rcases hl : List.lookup sid mb.buffers with _ | b0
  all_goals dsimp only
  · exact ⟨rfl, fun sid' b hne => mem_setBuffer_of_ne _ _ _ _ _ hne⟩
  · exact ⟨rfl, fun sid' b hne => mem_setBuffer_of_ne _ _ _ _ _ hne⟩

/-! ### Claims -/

/-- C1 (counterexample): a dispatch attempted at t=6 on the pending
collection ["weather in paris"] whose resolver answers with the single token
"Paris" returns the 400 `invalidLocation` response and leaves the record
with `triggerDetected = true`, a non-empty `collectedQuestion` and
`responseSent = false` — the claimed unconditional reset to IDLE with
`responseSent = true` does not happen. -/
theorem c1_counterexample :
    (let r := webhook (fun _ => "Paris") (fun _ _ => "sunny") 6 ["please?"]
        { messages := [], trigger_detected := true, trigger_time := 0,
          collected_question := ["weather in paris"], response_sent := false,
          partial_trigger := false, partial_trigger_time := 0,
          last_activity := 0 } (-100)
     r.resolved = some (locationQuery "weather in paris?") ∧
       r.resp = WebhookResponse.invalidLocation ∧
       r.buf.trigger_detected = true ∧
       r.buf.collected_question = ["weather in paris"] ∧
       r.buf.response_sent = false) := by
  decide

/-- C1 (amended): whenever a dispatch is attempted (the location-extraction
call is made), the record is reset to IDLE with `responseSent = true` exactly
when the resolver yields exactly two comma-separated tokens; on malformed
resolver output the request returns the client error and the record is left
un-reset, with `triggerDetected = true`, a non-empty `collectedQuestion` and
`responseSent = false`. -/
theorem c1_reset_only_on_success (resolve : String → String)
    (fetch : String → String → String) (now : ℚ) (segs : List String)
    (buf0 : BufferData) (cd : ℚ) (q : String)
    (hq : (webhook resolve fetch now segs buf0 cd).resolved = some q) :
    ((∃ msg, (webhook resolve fetch now segs buf0 cd).resp =
        WebhookResponse.forecast msg) ∧
      (webhook resolve fetch now segs buf0 cd).buf.trigger_detected = false ∧
      (webhook resolve fetch now segs buf0 cd).buf.trigger_time = 0 ∧
      (webhook resolve fetch now segs buf0 cd).buf.collected_question = [] ∧
      (webhook resolve fetch now segs buf0 cd).buf.response_sent = true ∧
      (webhook resolve fetch now segs buf0 cd).buf.partial_trigger = false) ∨
    ((webhook resolve fetch now segs buf0 cd).resp =
        WebhookResponse.invalidLocation ∧
      (webhook resolve fetch now segs buf0 cd).buf.trigger_detected = true ∧
      (webhook resolve fetch now segs buf0 cd).buf.collected_question ≠ [] ∧
      (webhook resolve fetch now segs buf0 cd).buf.response_sent = false) := by
  obtain ⟨fs, hfs, -, h⟩ := webhook_dispatch_cases resolve fetch now segs buf0 cd q hq
  rcases h with h | h
  · exact Or.inl h
  · exact Or.inr ⟨h.1, h.2.1, by rw [h.2.2.1]; exact hfs, h.2.2.2⟩

/-- C1 (witness): the amended theorem applied to the concrete failing
dispatch. -/
theorem c1_witness :
    ((∃ msg, (webhook (fun _ => "Paris") (fun _ _ => "sunny") 6 ["please?"]
        { messages := [], trigger_detected := true, trigger_time := 0,
          collected_question := ["weather in paris"], response_sent := false,
          partial_trigger := false, partial_trigger_time := 0,
          last_activity := 0 } (-100)).resp = WebhookResponse.forecast msg) ∧
      (webhook (fun _ => "Paris") (fun _ _ => "sunny") 6 ["please?"]
        { messages := [], trigger_detected := true, trigger_time := 0,
          collected_question := ["weather in paris"], response_sent := false,
          partial_trigger := false, partial_trigger_time := 0,
          last_activity := 0 } (-100)).buf.trigger_detected = false ∧
      (webhook (fun _ => "Paris") (fun _ _ => "sunny") 6 ["please?"]
        { messages := [], trigger_detected := true, trigger_time := 0,
          collected_question := ["weather in paris"], response_sent := false,
          partial_trigger := false, partial_trigger_time := 0,
          last_activity := 0 } (-100)).buf.trigger_time = 0 ∧
      (webhook (fun _ => "Paris") (fun _ _ => "sunny") 6 ["please?"]
        { messages := [], trigger_detected := true, trigger_time := 0,
          collected_question := ["weather in paris"], response_sent := false,
          partial_trigger := false, partial_trigger_time := 0,
          last_activity := 0 } (-100)).buf.collected_question = [] ∧
      (webhook (fun _ => "Paris") (fun _ _ => "sunny") 6 ["please?"]
        { messages := [], trigger_detected := true, trigger_time := 0,
          collected_question := ["weather in paris"], response_sent := false,
          partial_trigger := false, partial_trigger_time := 0,
          last_activity := 0 } (-100)).buf.response_sent = true ∧
      (webhook (fun _ => "Paris") (fun _ _ => "sunny") 6 ["please?"]
        { messages := [], trigger_detected := true, trigger_time := 0,
          collected_question := ["weather in paris"], response_sent := false,
          partial_trigger := false, partial_trigger_time := 0,
          last_activity := 0 } (-100)).buf.partial_trigger = false) ∨
    ((webhook (fun _ => "Paris") (fun _ _ => "sunny") 6 ["please?"]
        { messages := [], trigger_detected := true, trigger_time := 0,
          collected_question := ["weather in paris"], response_sent := false,
          partial_trigger := false, partial_trigger_time := 0,
          last_activity := 0 } (-100)).resp = WebhookResponse.invalidLocation ∧
      (webhook (fun _ => "Paris") (fun _ _ => "sunny") 6 ["please?"]
        { messages := [], trigger_detected := true, trigger_time := 0,
          collected_question := ["weather in paris"], response_sent := false,
          partial_trigger := false, partial_trigger_time := 0,
          last_activity := 0 } (-100)).buf.trigger_detected = true ∧
      (webhook (fun _ => "Paris") (fun _ _ => "sunny") 6 ["please?"]
        { messages := [], trigger_detected := true, trigger_time := 0,
          collected_question := ["weather in paris"], response_sent := false,
          partial_trigger := false, partial_trigger_time := 0,
          last_activity := 0 } (-100)).buf.collected_question ≠ [] ∧
      (webhook (fun _ => "Paris") (fun _ _ => "sunny") 6 ["please?"]
        { messages := [], trigger_detected := true, trigger_time := 0,
          collected_question := ["weather in paris"], response_sent := false,
          partial_trigger := false, partial_trigger_time := 0,
          last_activity := 0 } (-100)).buf.response_sent = false) :=
  c1_reset_only_on_success (fun _ => "Paris") (fun _ _ => "sunny") 6 ["please?"]
    { messages := [], trigger_detected := true, trigger_time := 0,
      collected_question := ["weather in paris"], response_sent := false,
      partial_trigger := false, partial_trigger_time := 0,
      last_activity := 0 } (-100) (locationQuery "weather in paris?") (by decide)

/-- C2 (counterexample): a session whose trigger was confirmed at t0 = 0 with
an empty collection, evaluated on a segment at t = 8 (later than t0 + 7.5s,
with no cooldown interference), performs no dispatch at all: the resolver is
never called, the response is the plain success, and the record still has an
empty collection with the trigger pending. -/
theorem c2_counterexample :
    (let r := webhook (fun _ => "Paris, France") (fun _ _ => "sunny") 8
        ["any segment at all"]
        { messages := [], trigger_detected := true, trigger_time := 0,
          collected_question := [], response_sent := false,
          partial_trigger := false, partial_trigger_time := 0,
          last_activity := 0 } (-100)
     r.resolved = none ∧ r.resp = WebhookResponse.success ∧
       r.buf.collected_question = [] ∧ r.buf.trigger_detected = true) := by
  decide

/-- C2 (amended): past 1.5 times the aggregation window the `should_process`
disjunct does fire regardless of content, but the dispatch additionally
requires a non-empty `collectedQuestion`; with an empty collection the
segment evaluation is a complete no-op — the segment is not appended (the 5s
window has passed) and no dispatch happens, so the record is left unchanged
rather than being forced to READY. -/
theorem c2_forced_closure_requires_fragments (resolve : String → String)
    (fetch : String → String → String) (now cd : ℚ) (buf : BufferData)
    (raw : String)
    (hT : buf.trigger_detected = true) (hS : buf.response_sent = false)
    (hE : buf.collected_question = [])
    (hlate : now - buf.trigger_time > QUESTION_AGGREGATION_TIME * (3 / 2)) :
    processSegment resolve fetch now cd buf raw = ⟨buf, cd, none⟩ := by
  have hnle : ¬(now - buf.trigger_time ≤ QUESTION_AGGREGATION_TIME) := by
    simp only [QUESTION_AGGREGATION_TIME] at hlate ⊢
    intro hcon
    nlinarith [hlate, hcon]
  by_cases hraw : raw = ""
  · simp [processSegment, hraw]
  · simp only [processSegment, hraw, if_false]
    simp only [hT, Bool.not_true, Bool.and_false, Bool.false_and, if_false,
      Bool.false_eq_true, ite_false]
    simp [collectStep, accumulate, hT, hS, hnle, hE]

/-- C2 (witness): the amended theorem at the counterexample's input. -/
theorem c2_witness :
    processSegment (fun _ => "Paris, France") (fun _ _ => "sunny") 8 (-100)
      { messages := [], trigger_detected := true, trigger_time := 0,
        collected_question := [], response_sent := false,
        partial_trigger := false, partial_trigger_time := 0,
        last_activity := 0 } "any segment at all" =
      ⟨{ messages := [], trigger_detected := true, trigger_time := 0,
         collected_question := [], response_sent := false,
         partial_trigger := false, partial_trigger_time := 0,
         last_activity := 0 }, -100, none⟩ :=
  c2_forced_closure_requires_fragments (fun _ => "Paris, France")
    (fun _ _ => "sunny") 8 (-100) _ "any segment at all" rfl rfl rfl (by decide)

/-- C3 (counterexample): "hey omi" delivered at t0 = 0 confirms the trigger
and stamps the cooldown; the follow-up delivery carrying the question at
t0 + 1s is then short-circuited by the 10s cooldown gate to a no-op success
— no segment is processed, nothing is collected, and no dispatch is
performed, contrary to the claimed READY outcome. -/
theorem c3_counterexample :
    (let r1 := webhook (fun _ => "Paris, France") (fun c k => c ++ "/" ++ k) 0
        ["hey omi"] (freshBuffer 0) 0
     let r2 := webhook (fun _ => "Paris, France") (fun c k => c ++ "/" ++ k) 1
        ["what\x27s the weather in paris france?"] r1.buf r1.cooldown
     r1.buf.trigger_detected = true ∧ r1.cooldown = 0 ∧
       r2.resp = WebhookResponse.success ∧ r2.resolved = none ∧
       r2.buf.collected_question = []) := by
  decide

/-- C3 (amended): the claimed end-to-end outcome does hold when the two
segments arrive in a single delivery: the trigger is confirmed, the question
segment is collected as the single fragment
"what's the weather in paris france?", the dispatch runs on exactly that
text, the resolver's "Paris, France" is split into the two tokens, and the
record is reset with `responseSent = true`. -/
theorem c3_single_request :
    (let r := webhook (fun _ => "Paris, France") (fun c k => c ++ "/" ++ k) 0
        ["hey omi", "what\x27s the weather in paris france?"] (freshBuffer 0) 0
     r.resp = WebhookResponse.forecast "Paris/France" ∧
       r.resolved = some (locationQuery "what\x27s the weather in paris france?") ∧
       r.buf.response_sent = true ∧ r.buf.trigger_detected = false ∧
       r.buf.collected_question = []) := by
  decide

/-- C4 (counterexample): a session in PARTIAL_PENDING (partial trigger at
t = 0, cooldown timestamp −50) that receives "omi" at t = 1 confirms the
trigger, but the cooldown timestamp stays at −50 instead of being set to the
current time 1 as the claim demands. -/
theorem c4_counterexample :
    (let r := webhook (fun _ => "Paris, France") (fun _ _ => "sunny") 1 ["omi"]
        { messages := [], trigger_detected := false, trigger_time := 0,
          collected_question := [], response_sent := false,
          partial_trigger := true, partial_trigger_time := 0,
          last_activity := 0 } (-50)
     r.buf.trigger_detected = true ∧ r.cooldown = -50 ∧ ¬(r.cooldown = 1)) := by
  decide

/-- C4 (amended): a second-half fragment arriving within 2.0s of
`partialTriggerTime` confirms the trigger with exactly the same effects on
the session record as the single-segment full-phrase path — both sites run
the shared `confirmTrigger` update (`triggerDetected = true`,
`triggerTime = now`, collection cleared and re-seeded from any text after
"omi,", `responseSent = false`, `partialTrigger = false`) — but unlike the
full-phrase path it leaves the session's notification-cooldown timestamp
unchanged. -/
theorem c4_partial_confirm_no_cooldown (resolve : String → String)
    (fetch : String → String → String) (now cd : ℚ) (buf : BufferData)
    (raw : String) (hraw : raw ≠ "")
    (hT : buf.trigger_detected = false)
    (hfull : (TRIGGER_PHRASES.any fun t =>
        pyContains (pyStrip (pyLower raw)) (pyLower t)) = false)
    (hfirst : (PARTIAL_FIRST.any fun pa =>
        pyEndsWith (pyStrip (pyLower raw)) (pyLower pa)) = false)
    (hpart : buf.partial_trigger = true)
    (hwin : now - buf.partial_trigger_time ≤ 2)
    (hsecond : (PARTIAL_SECOND.any fun pa =>
        pyContains (pyStrip (pyLower raw)) (pyLower pa)) = true) :
    processSegment resolve fetch now cd buf raw =
      ⟨confirmTrigger now buf (pyStrip (pyLower raw)), cd, none⟩ ∧
    (confirmTrigger now buf (pyStrip (pyLower raw))).trigger_detected = true ∧
    (confirmTrigger now buf (pyStrip (pyLower raw))).trigger_time = now ∧
    (confirmTrigger now buf (pyStrip (pyLower raw))).response_sent = false ∧
    (confirmTrigger now buf (pyStrip (pyLower raw))).partial_trigger = false ∧
    (processSegment resolve fetch now cd buf raw).cooldown = cd := by
  have he := processSegment_partial_second resolve fetch now cd buf raw hraw
    hT hfull hfirst hpart hwin hsecond
  have hf := confirmTrigger_fields now buf (pyStrip (pyLower raw))
  exact ⟨he, hf.1, hf.2.1, hf.2.2.1, hf.2.2.2.1, by rw [he]⟩

/-- C4 (witness): the amended theorem at the counterexample's input. -/
theorem c4_witness :
    processSegment (fun _ => "Paris, France") (fun _ _ => "sunny") 1 (-50)
      { messages := [], trigger_detected := false, trigger_time := 0,
        collected_question := [], response_sent := false,
        partial_trigger := true, partial_trigger_time := 0,
        last_activity := 0 } "omi" =
      ⟨confirmTrigger 1
        { messages := [], trigger_detected := false, trigger_time := 0,
          collected_question := [], response_sent := false,
          partial_trigger := true, partial_trigger_time := 0,
          last_activity := 0 } (pyStrip (pyLower "omi")), -50, none⟩ ∧
    (confirmTrigger 1
        { messages := [], trigger_detected := false, trigger_time := 0,
          collected_question := [], response_sent := false,
          partial_trigger := true, partial_trigger_time := 0,
          last_activity := 0 } (pyStrip (pyLower "omi"))).trigger_detected = true :=
  ⟨(c4_partial_confirm_no_cooldown (fun _ => "Paris, France") (fun _ _ => "sunny")
      1 (-50) _ "omi" (by decide) rfl (by decide) (by decide) rfl (by decide)
      (by decide)).1,
   (c4_partial_confirm_no_cooldown (fun _ => "Paris, France") (fun _ _ => "sunny")
      1 (-50) _ "omi" (by decide) rfl (by decide) (by decide) rfl (by decide)
      (by decide)).2.1⟩

/-- C5: with a confirmed, unresolved trigger (`triggerDetected = true`,
`responseSent = false`), any request arriving less than 10s after the
session's cooldown timestamp is short-circuited — once per request, before
any segment is looked at — to a no-op success: no segment is processed, no
dispatch is attempted, and no trigger/aggregation field changes (only
`lastActivity` is refreshed by the store lookup). -/
theorem c5_cooldown_short_circuit (resolve : String → String)
    (fetch : String → String → String) (now : ℚ) (segs : List String)
    (buf : BufferData) (cd : ℚ)
    (hT : buf.trigger_detected = true) (hS : buf.response_sent = false)
    (hlt : now - cd < NOTIFICATION_COOLDOWN) :
    webhook resolve fetch now segs buf cd =
      ⟨{ buf with last_activity := now }, cd, WebhookResponse.success, none⟩ := by
  simp [webhook, hT, hS, hlt]

/-- C5 (witness): a delivery 5s after the cooldown stamp is dropped whole. -/
theorem c5_witness :
    webhook (fun _ => "Paris, France") (fun _ _ => "sunny") 5
      ["hey omi", "what is the weather?"]
      { messages := [], trigger_detected := true, trigger_time := 0,
        collected_question := ["pending question"], response_sent := false,
        partial_trigger := false, partial_trigger_time := 0,
        last_activity := 0 } 0 =
      ⟨{ messages := [], trigger_detected := true, trigger_time := 0,
         collected_question := ["pending question"], response_sent := false,
         partial_trigger := false, partial_trigger_time := 0,
         last_activity := 5 }, 0, WebhookResponse.success, none⟩ :=
  c5_cooldown_short_circuit (fun _ => "Paris, France") (fun _ _ => "sunny") 5
    ["hey omi", "what is the weather?"] _ 0 rfl rfl (by decide)

/-- C6: across any sequence of processed requests, every session record that
satisfies "collectedQuestion non-empty implies triggerDetected" keeps
satisfying it: a non-empty collection is only ever reachable with the
trigger flag set. -/
theorem c6_collected_implies_trigger (resolve : String → String)
    (fetch : String → String → String) (reqs : List (ℚ × List String))
    (cd : ℚ) (buf : BufferData)
    (h : buf.collected_question ≠ [] → buf.trigger_detected = true) :
    (processRequests resolve fetch reqs cd buf).1.collected_question ≠ [] →
    (processRequests resolve fetch reqs cd buf).1.trigger_detected = true :=
  inv_processRequests resolve fetch reqs cd buf h

/-- C6 (witness): after a fresh session collects a question part from
"hey omi, weather in berlin", its non-empty collection indeed comes with the
trigger flag set. -/
theorem c6_witness :
    (processRequests (fun _ => "Berlin, Germany") (fun _ _ => "sunny")
      [((0 : ℚ), ["hey omi, weather in berlin"])] 0
      (freshBuffer 0)).1.trigger_detected = true :=
  c6_collected_implies_trigger (fun _ => "Berlin, Germany") (fun _ _ => "sunny")
    [((0 : ℚ), ["hey omi, weather in berlin"])] 0 (freshBuffer 0)
    (fun hx => absurd rfl hx) (by decide)

/-- C7: the sweep removes exactly the records whose `lastActivity` is more
than 3600s older than its `now` (every record touched within the last 3600s
survives) and stamps the sweep time; `get_buffer` runs the sweep exactly when
more than 300s (`cleanup_interval`) have elapsed since the previous sweep,
before the lookup/creation mutates the mapping — stated here for every other
session id, whose entries the lookup/creation leaves alone. -/
theorem c7_sweep_exact (now : ℚ) (sid : String) (mb : MessageBuffer) :
    (∀ sid' : String, ∀ b : BufferData,
      (((sid', b) ∈ (cleanup_old_sessions now mb).buffers) ↔
        ((sid', b) ∈ mb.buffers ∧ ¬(now - b.last_activity > 3600)))) ∧
    (cleanup_old_sessions now mb).last_cleanup = now ∧
    (now - mb.last_cleanup > cleanup_interval →
      ((get_buffer now sid mb).1.last_cleanup = now ∧
        ∀ sid' : String, ∀ b : BufferData, sid' ≠ sid →
          (((sid', b) ∈ (get_buffer now sid mb).1.buffers) ↔
            ((sid', b) ∈ mb.buffers ∧ ¬(now - b.last_activity > 3600))))) ∧
    (¬(now - mb.last_cleanup > cleanup_interval) →
      ((get_buffer now sid mb).1.last_cleanup = mb.last_cleanup ∧
        ∀ sid' : String, ∀ b : BufferData, sid' ≠ sid →
          (((sid', b) ∈ (get_buffer now sid mb).1.buffers) ↔
            (sid', b) ∈ mb.buffers))) :=
  ⟨fun sid' b => mem_cleanup now mb sid' b, rfl,
   fun hgt => get_buffer_sweep now sid mb hgt,
   fun hle => get_buffer_nosweep now sid mb hle⟩

/-- C7 (witness): at now = 4000 with the last sweep at 0, `get_buffer` sweeps:
the session idle since 0 is removed, the one touched at 3000 survives, and
the sweep time is stamped. -/
theorem c7_witness :
    ((4000 : ℚ) - 0 > cleanup_interval) ∧
    (get_buffer 4000 "s1"
      ⟨[("old", freshBuffer 0), ("new", freshBuffer 3000)], 0⟩).1.last_cleanup = 4000 ∧
    ¬(("old", freshBuffer 0) ∈ (get_buffer 4000 "s1"
      ⟨[("old", freshBuffer 0), ("new", freshBuffer 3000)], 0⟩).1.buffers) ∧
    (("new", freshBuffer 3000) ∈ (get_buffer 4000 "s1"
      ⟨[("old", freshBuffer 0), ("new", freshBuffer 3000)], 0⟩).1.buffers) := by
  refine ⟨by decide, ?_, ?_, ?_⟩
  · exact ((c7_sweep_exact 4000 "s1"
      ⟨[("old", freshBuffer 0), ("new", freshBuffer 3000)], 0⟩).2.2.1 (by decide)).1
  · intro hmem
    have h := (((c7_sweep_exact 4000 "s1"
        ⟨[("old", freshBuffer 0), ("new", freshBuffer 3000)], 0⟩).2.2.1
        (by decide)).2 "old" (freshBuffer 0) (by decide)).mp hmem
    exact h.2 (by decide)
  · exact (((c7_sweep_exact 4000 "s1"
        ⟨[("old", freshBuffer 0), ("new", freshBuffer 3000)], 0⟩).2.2.1
        (by decide)).2 "new" (freshBuffer 3000) (by decide)).mpr
      ⟨by decide, by decide⟩

/-- C8: the split wake-phrase protocol, stated for segments the earlier
branch conditions do not capture (no full phrase in the text; for the
second-half steps, the text does not itself end in a first-half fragment):
(1) an untriggered session seeing a segment that ends with a configured
first-half fragment moves to PARTIAL_PENDING — only `partialTrigger` and
`partialTriggerTime` change, so nothing is consumed as question text;
(2) a second-half fragment within 2.0s then confirms the trigger;
(3) a second-half fragment after more than 2.0s leaves the session
untriggered with `partialTrigger` cleared to false. -/
theorem c8_partial_trigger_protocol :
    (∀ (resolve : String → String) (fetch : String → String → String)
        (now cd : ℚ) (buf : BufferData) (raw : String), raw ≠ "" →
      buf.trigger_detected = false →
      (TRIGGER_PHRASES.any fun t =>
        pyContains (pyStrip (pyLower raw)) (pyLower t)) = false →
      (PARTIAL_FIRST.any fun pa =>
        pyEndsWith (pyStrip (pyLower raw)) (pyLower pa)) = true →
      processSegment resolve fetch now cd buf raw =
        ⟨{ buf with partial_trigger := true, partial_trigger_time := now },
          cd, none⟩) ∧
    (∀ (resolve : String → String) (fetch : String → String → String)
        (now cd : ℚ) (buf : BufferData) (raw : String), raw ≠ "" →
      buf.trigger_detected = false →
      (TRIGGER_PHRASES.any fun t =>
        pyContains (pyStrip (pyLower raw)) (pyLower t)) = false →
      (PARTIAL_FIRST.any fun pa =>
        pyEndsWith (pyStrip (pyLower raw)) (pyLower pa)) = false →
      buf.partial_trigger = true →
      now - buf.partial_trigger_time ≤ 2 →
      (PARTIAL_SECOND.any fun pa =>
        pyContains (pyStrip (pyLower raw)) (pyLower pa)) = true →
      (processSegment resolve fetch now cd buf raw).buf.trigger_detected = true ∧
      (processSegment resolve fetch now cd buf raw).ret = none) ∧
    (∀ (resolve : String → String) (fetch : String → String → String)
        (now cd : ℚ) (buf : BufferData) (raw : String), raw ≠ "" →
      buf.trigger_detected = false →
      (TRIGGER_PHRASES.any fun t =>
        pyContains (pyStrip (pyLower raw)) (pyLower t)) = false →
      (PARTIAL_FIRST.any fun pa =>
        pyEndsWith (pyStrip (pyLower raw)) (pyLower pa)) = false →
      buf.partial_trigger = true →
      now - buf.partial_trigger_time > 2 →
      processSegment resolve fetch now cd buf raw =
        ⟨{ buf with partial_trigger := false }, cd, none⟩) := by
  refine ⟨?_, ?_, ?_⟩
  · intro resolve fetch now cd buf raw hraw hT hfull hfirst
    exact processSegment_partial_first resolve fetch now cd buf raw hraw hT
      hfull hfirst
  · intro resolve fetch now cd buf raw hraw hT hfull hfirst hpart hwin hsecond
    rw [processSegment_partial_second resolve fetch now cd buf raw hraw hT hfull
      hfirst hpart hwin hsecond]
    exact ⟨(confirmTrigger_fields now buf (pyStrip (pyLower raw))).1, rfl⟩
  · intro resolve fetch now cd buf raw hraw hT hfull hfirst hpart hlate
    exact processSegment_partial_expired resolve fetch now cd buf raw hraw hT
      hfull hfirst hpart hlate

/-- C8 (witness): "hey" at t = 0 arms the partial trigger; "omi" at t = 1
(within 2.0s) confirms; "omi" at t = 4 (more than 2.0s later) merely clears
`partialTrigger`. -/
theorem c8_witness :
    (processSegment (fun _ => "x") (fun _ _ => "y") 0 0 (freshBuffer 0) "hey" =
      ⟨{ freshBuffer 0 with partial_trigger := true, partial_trigger_time := 0 },
        0, none⟩) ∧
    ((processSegment (fun _ => "x") (fun _ _ => "y") 1 0
        { messages := [], trigger_detected := false, trigger_time := 0,
          collected_question := [], response_sent := false,
          partial_trigger := true, partial_trigger_time := 0,
          last_activity := 0 } "omi").buf.trigger_detected = true) ∧
    (processSegment (fun _ => "x") (fun _ _ => "y") 4 0
        { messages := [], trigger_detected := false, trigger_time := 0,
          collected_question := [], response_sent := false,
          partial_trigger := true, partial_trigger_time := 0,
          last_activity := 0 } "omi" =
      ⟨{ messages := [], trigger_detected := false, trigger_time := 0,
         collected_question := [], response_sent := false,
         partial_trigger := false, partial_trigger_time := 0,
         last_activity := 0 }, 0, none⟩) :=
  ⟨c8_partial_trigger_protocol.1 (fun _ => "x") (fun _ _ => "y") 0 0
      (freshBuffer 0) "hey" (by decide) rfl (by decide) (by decide),
   (c8_partial_trigger_protocol.2.1 (fun _ => "x") (fun _ _ => "y") 1 0 _ "omi"
      (by decide) rfl (by decide) (by decide) rfl (by decide) (by decide)).1,
   c8_partial_trigger_protocol.2.2 (fun _ => "x") (fun _ _ => "y") 4 0 _ "omi"
      (by decide) rfl (by decide) (by decide) rfl (by decide)⟩

/-- C9: while a session is COLLECTING (`triggerDetected = true`,
`responseSent = false`), a segment containing a full wake phrase is handled
by the ordinary collection block — the trigger-restart branch is not taken,
so `triggerTime`, `collectedQuestion` and the cooldown timestamp are not
reset by it; within the 5s window the text is appended as an ordinary
question fragment (and, if that append triggers a dispatch, the dispatch
runs on the appended collection, exactly as for any other text). -/
theorem c9_no_retrigger (resolve : String → String)
    (fetch : String → String → String) (now cd : ℚ) (buf : BufferData)
    (raw : String)
    (hT : buf.trigger_detected = true) (hS : buf.response_sent = false)
    (hraw : raw ≠ "")
    (_hfull : (TRIGGER_PHRASES.any fun t =>
        pyContains (pyStrip (pyLower raw)) (pyLower t)) = true)
    (hwin : now - buf.trigger_time ≤ QUESTION_AGGREGATION_TIME) :
    processSegment resolve fetch now cd buf raw =
      collectStep resolve fetch now cd buf (pyStrip (pyLower raw)) ∧
    (processSegment resolve fetch now cd buf raw).cooldown = cd ∧
    ((processSegment resolve fetch now cd buf raw).ret = none →
      (processSegment resolve fetch now cd buf raw).buf =
        { buf with collected_question :=
            buf.collected_question ++ [pyStrip (pyLower raw)] }) ∧
    (∀ pr : WebhookResponse × String,
      (processSegment resolve fetch now cd buf raw).ret = some pr →
      pr.2 = locationQuery (fullQuestion
        (buf.collected_question ++ [pyStrip (pyLower raw)]))) := by
  have he := processSegment_triggered_eq resolve fetch now cd buf raw hT hraw
  refine ⟨he, ?_, ?_, ?_⟩
  · rw [he]
    exact collectStep_cooldown resolve fetch now cd buf (pyStrip (pyLower raw))
  · intro hn
    rw [he] at hn ⊢
    exact collectStep_none_buf resolve fetch now cd buf (pyStrip (pyLower raw))
      hT hS hwin hn
  · intro pr hp
    rw [he] at hp
    exact collectStep_some_q resolve fetch now cd buf (pyStrip (pyLower raw)) pr
      hT hS hwin hp

/-- C9 (witness): "hey omi today" arriving 1s into an active collection is
appended as plain question text, with nothing reset. -/
theorem c9_witness :
    (processSegment (fun _ => "x") (fun _ _ => "y") 1 7
      { messages := [], trigger_detected := true, trigger_time := 0,
        collected_question := ["what is"], response_sent := false,
        partial_trigger := false, partial_trigger_time := 0,
        last_activity := 0 } "hey omi today").buf =
      { messages := [], trigger_detected := true, trigger_time := 0,
        collected_question := ["what is"] ++ [pyStrip (pyLower "hey omi today")],
        response_sent := false, partial_trigger := false,
        partial_trigger_time := 0, last_activity := 0 } :=
  (c9_no_retrigger (fun _ => "x") (fun _ _ => "y") 1 7 _ "hey omi today"
    rfl rfl (by decide) (by decide) (by decide)).2.2.1 (by decide)

/-- C10: the question text handed to the location resolver is
`fullQuestion` of the collected fragments — their space-separated join,
stripped of surrounding whitespace, with "?" appended when the stripped join
lacks it — and it always ends with a question mark; every dispatch the
webhook performs passes the resolver the location prompt built from
`fullQuestion` of a non-empty fragment list. -/
theorem c10_resolver_question :
    (∀ fs : List String, pyEndsWith (fullQuestion fs) "?" = true) ∧
    (∀ (resolve : String → String) (fetch : String → String → String)
        (now : ℚ) (segs : List String) (buf0 : BufferData) (cd : ℚ) (q : String),
      (webhook resolve fetch now segs buf0 cd).resolved = some q →
      ∃ fs : List String, fs ≠ [] ∧ q = locationQuery (fullQuestion fs)) := by
  refine ⟨fullQuestion_endsWith, ?_⟩
  intro resolve fetch now segs buf0 cd q hq
  obtain ⟨fs, hfs, hq2, -⟩ :=
    webhook_dispatch_cases resolve fetch now segs buf0 cd q hq
  exact ⟨fs, hfs, hq2⟩

/-- C10 (witness): the question-mark guarantee at a concrete fragment list,
and the dispatch shape at a concrete dispatch. -/
theorem c10_witness :
    pyEndsWith (fullQuestion ["weather in rome"]) "?" = true ∧
    (∃ fs : List String, fs ≠ [] ∧
      locationQuery "weather in rome?" = locationQuery (fullQuestion fs)) :=
  ⟨c10_resolver_question.1 ["weather in rome"],
   c10_resolver_question.2 (fun _ => "Rome, Italy") (fun _ _ => "cold") 6 ["ok?"]
     { messages := [], trigger_detected := true, trigger_time := 0,
       collected_question := ["weather in rome"], response_sent := false,
       partial_trigger := false, partial_trigger_time := 0, last_activity := 0 }
     (-100) (locationQuery "weather in rome?") (by decide)⟩

end WeatherOmi
